import Mathlib

/-!
Verification development for the luredb-vscode search/indexing core.

The TypeScript sources (src/colorSearchProvider.ts, the lure search provider,
and the resolver logic of src/extension.ts) are shallowly embedded below:
JSON objects become association lists (later bindings win, as with repeated
JSON keys and successive Map.set calls), nullable/optional fields become
Option, the JavaScript number-or-string `number` field becomes an explicit
sum type, and the NaN-propagating numeric coercion becomes Option Int.
-/

/-! ## Models of the JavaScript string primitives used by the source -/

/-- Model of JS String.prototype.toLowerCase, at the ASCII level at which the
catalog data lives: lowercases each character. -/
def jsToLower (s : String) : String := ⟨s.data.map Char.toLower⟩

/-- Whitespace recognized by the model of JS String.prototype.trim: the common
JS WhiteSpace/LineTerminator characters. -/
def isJsSpace (c : Char) : Bool :=
  c == ' ' || c == '\t' || c == '\n' || c == '\r' || c == '\x0b' || c == '\x0c'

/-- Model of JS String.prototype.trim: strip leading and trailing whitespace. -/
def jsTrim (s : String) : String :=
  ⟨((s.data.dropWhile isJsSpace).reverse.dropWhile isJsSpace).reverse⟩

/-- Character-list test that the second list is a leading segment of the first,
modelling JS String.prototype.startsWith. -/
def listStartsWith : List Char → List Char → Bool
  | _, [] => true
  | [], _ :: _ => false
  | a :: as, b :: bs => a == b && listStartsWith as bs

/-- Model of JS String.prototype.startsWith. -/
def jsStartsWith (s p : String) : Bool := listStartsWith s.data p.data

/-- Character-list substring-containment test used to model
JS String.prototype.includes. -/
def listContainsSub (sub : List Char) : List Char → Bool
  | [] => listStartsWith [] sub
  | c :: cs => listStartsWith (c :: cs) sub || listContainsSub sub cs

/-- Model of JS String.prototype.includes: does s contain sub as a substring. -/
def jsIncludes (s sub : String) : Bool := listContainsSub sub.data s.data

/-- Model of a JS object used as a string-keyed dictionary built by successive
assignments (JSON parsing keeps the last duplicate key; Map.set overwrites):
lookup returns the value of the last binding for the key. -/
def mapGet {α : Type} (m : List (String × α)) (k : String) : Option α :=
  m.foldl (fun acc e => if e.1 == k then some e.2 else acc) none

/-- Model of JS String.prototype.localeCompare under the default locale for the
ASCII strings of this catalog: the primary comparison is case-insensitive
lexicographic; strings equal up to case are ordered by their exact form. -/
def localeCompare (a b : String) : Int :=
  if (jsToLower a).data < (jsToLower b).data then -1
  else if (jsToLower b).data < (jsToLower a).data then 1
  else if a.data < b.data then -1
  else if b.data < a.data then 1
  else 0

/-! ## Model of the JS number-or-string values and numeric coercion -/

/-- A JS value that is either a number or a string, as in the `number` field of
a lure record. The numbers of this catalog are integers. -/
inductive NumVal where
  | num (n : Int)
  | str (s : String)
deriving DecidableEq

/-- Model of JS Number.prototype.toString / String(x) on the values of this
catalog: decimal representation for numbers, identity for strings. -/
def numToString : NumVal → String
  | .num n => toString n
  | .str s => s

/-- Decimal value of a list of digit characters. -/
def decDigitsVal (l : List Char) : Nat := l.foldl (fun a c => a * 10 + (c.toNat - 48)) 0

/-- Model of the JS Number(string) coercion, restricted to the integer-valued
strings of this domain: the trimmed string must be empty (value 0) or an
optionally signed decimal digit string; every other string is NaN, modelled
as none. -/
def jsStringToNumber (s : String) : Option Int :=
  let t := (jsTrim s).data
  if t.isEmpty then some 0
  else if t.all Char.isDigit then some (Int.ofNat (decDigitsVal t))
  else if t.head? = some '-' ∧ t.tail ≠ [] ∧ t.tail.all Char.isDigit then
    some (-(Int.ofNat (decDigitsVal t.tail)))
  else if t.head? = some '+' ∧ t.tail ≠ [] ∧ t.tail.all Char.isDigit then
    some (Int.ofNat (decDigitsVal t.tail))
  else none

/-- Model of the JS Number(x) coercion on number-or-string values; none is NaN. -/
def jsToNumber : NumVal → Option Int
  | .num n => some n
  | .str s => jsStringToNumber s

/-! ## Data model of the catalog document (colorSearchProvider.ts interfaces) -/

/-- A color record of the source document (interface Database, colors array). -/
structure ColorEntry where
  id : String
  name : String
  yearIntroduced : Option Int
  yearLastUsed : Option Int
  companyId : Option String
  pre1925Id : Option (List String)
deriving DecidableEq

/-- A manufacturer record as the color provider reads it. -/
structure Manufacturer where
  id : String
  name : String
  colors : Option (List ColorEntry)
deriving DecidableEq

/-- An entry of the optional byId acceleration index. -/
structure IdIndexEntry where
  manufacturerId : String
  colorName : String
  companyId : Option String
deriving DecidableEq

/-- The optional indexes block of the source document. -/
structure Indexes where
  byId : Option (List (String × IdIndexEntry))
  byCompanyId : Option (List (String × List String))
  byYearIntroduced : Option (List (String × List String))
  byManufacturer : Option (List (String × List String))
deriving DecidableEq

/-- The parsed source document as the color provider sees it (interface
Database). The manufacturers mapping is Option because the runtime JSON may
lack it even though the TS type declares it. -/
structure Database where
  manufacturers : Option (List (String × Manufacturer))
  indexes : Option Indexes
deriving DecidableEq

/-- A flattened cached color record (interface ColorData). -/
structure ColorData where
  id : String
  name : String
  yearIntroduced : Option Int
  yearLastUsed : Option Int
  companyId : Option String
  pre1925Id : Option (List String)
  manufacturerId : String
  manufacturerName : String
deriving DecidableEq

/-! ## The shared ranking comparator (identical in both providers) -/

/-- The sort comparator of ColorSearchProvider.search and
LureSearchProvider.search, acting on the two record names: exact
(case-insensitive) name equality with the query sorts first, then a name
starting with the query, then localeCompare of the raw names. -/
def nameCmp (q an bn : String) : Int :=
  if (jsToLower an == q) && !(jsToLower bn == q) then -1
  else if !(jsToLower an == q) && (jsToLower bn == q) then 1
  else if jsStartsWith (jsToLower an) q && !(jsStartsWith (jsToLower bn) q) then -1
  else if !(jsStartsWith (jsToLower an) q) && jsStartsWith (jsToLower bn) q then 1
  else localeCompare an bn

/-- The sort relation induced by the comparator on color records. -/
def colorRank (q : String) (a b : ColorData) : Prop := nameCmp q a.name b.name ≤ 0

instance (q : String) : DecidableRel (colorRank q) := fun a b => by
  unfold colorRank; infer_instance

namespace ColorSearchProvider

/-- The mutable state of a ColorSearchProvider instance. -/
structure State where
  database : Option Database
  colorCache : List ColorData
deriving DecidableEq

/-- The field initializers of the class: database null, empty cache. -/
def initialState : State := ⟨none, []⟩

/-- Flattening of one source color onto the cache, stamped with its
manufacturer id and name (body of the buildColorCache inner loop). -/
def flattenColor (manufacturerId manufacturerName : String) (c : ColorEntry) : ColorData :=
  ⟨c.id, c.name, c.yearIntroduced, c.yearLastUsed, c.companyId, c.pre1925Id,
    manufacturerId, manufacturerName⟩

/-- ColorSearchProvider.buildColorCache: when the parsed document has no
manufacturers mapping the method returns early, leaving the previous cache in
place; otherwise it rebuilds the cache from every manufacturer's colors,
skipping manufacturers without a colors array. -/
def buildColorCache (db : Database) (old : List ColorData) : List ColorData :=
  match db.manufacturers with
  | none => old
  | some ms =>
    ms.foldl (fun acc e =>
      match e.2.colors with
      | none => acc
      | some cs => acc ++ cs.map (flattenColor e.1 e.2.name)) []

/-- ColorSearchProvider.loadDatabase: the input is the parsed document, or none
when reading or JSON.parse throws, in which case the catch block resets the
database and empties the cache. -/
def loadDatabase (st : State) (input : Option Database) : State :=
  match input with
  | none => ⟨none, []⟩
  | some db => ⟨some db, buildColorCache db st.colorCache⟩

/-- The constructor: initial field values, then loadDatabase. -/
def create (input : Option Database) : State := loadDatabase initialState input

/-- ColorSearchProvider.reload: re-invokes loadDatabase on a fresh read of the
document. -/
def reload (st : State) (input : Option Database) : State := loadDatabase st input

/-- The exact-ID branch of search: guarded by the presence of the lowercased
query as a key of the optional byId index; the hit itself is the first cached
color whose lowercased id equals the query. -/
def byIdHit (st : State) (lowerQuery : String) : Option ColorData :=
  match ((st.database.bind Database.indexes).bind Indexes.byId).bind
      (fun m => mapGet m lowerQuery) with
  | none => none
  | some _ => st.colorCache.find? (fun c => jsToLower c.id == lowerQuery)

/-- The company-ID branch of search: guarded by the presence of the raw query
as a key of the optional byCompanyId index; the listed ids are resolved
against the cache, dropping unresolved ones, and the branch succeeds only when
the resolved list is nonempty. -/
def companyIdHit (st : State) (query : String) : Option (List ColorData) :=
  match ((st.database.bind Database.indexes).bind Indexes.byCompanyId).bind
      (fun m => mapGet m query) with
  | none => none
  | some ids =>
    let ms := ids.filterMap (fun i => st.colorCache.find? (fun c => c.id == i))
    if ms.isEmpty then none else some ms

/-- The substring-scan predicate of search: the record matches when any of id,
name, companyId, any pre-1925 id, or the manufacturer name contains the
lowercased query. -/
def colorMatches (lowerQuery : String) (c : ColorData) : Bool :=
  jsIncludes (jsToLower c.id) lowerQuery ||
  jsIncludes (jsToLower c.name) lowerQuery ||
  (match c.companyId with
   | some cid => jsIncludes (jsToLower cid) lowerQuery
   | none => false) ||
  (match c.pre1925Id with
   | some ids => ids.any (fun i => jsIncludes (jsToLower i) lowerQuery)
   | none => false) ||
  jsIncludes (jsToLower c.manufacturerName) lowerQuery

/-- ColorSearchProvider.search. The sort of the substring-scan results is
modelled by the stable insertionSort under the comparator relation, matching
the stable Array.prototype.sort of modern JS engines on this consistent
comparator. -/
def search (st : State) (query : String) : List ColorData :=
  let lowerQuery := jsTrim (jsToLower query)
  if lowerQuery.isEmpty then []
  else
    match byIdHit st lowerQuery with
    | some c => [c]
    | none =>
      match companyIdHit st query with
      | some ms => ms
      | none =>
        List.insertionSort (colorRank lowerQuery)
          (st.colorCache.filter (colorMatches lowerQuery))

/-- ColorSearchProvider.getById: first cached color whose id is strictly equal
to the argument. -/
def getById (st : State) (id : String) : Option ColorData :=
  st.colorCache.find? (fun c => c.id == id)

/-- ColorSearchProvider.getByCompanyId: all cached colors whose companyId is
strictly equal to the argument. -/
def getByCompanyId (st : State) (companyId : String) : List ColorData :=
  st.colorCache.filter (fun c => c.companyId == some companyId)

/-- ColorSearchProvider.getAllColors: a copy of the cache. -/
def getAllColors (st : State) : List ColorData := st.colorCache

end ColorSearchProvider

/-! ## Data model and provider for lures (lureSearchProvider) -/

/-- A lure record of the source document. -/
structure LureEntry where
  name : String
  number : NumVal
  yearIntroduced : Option Int
  yearLastMfg : Option Int
  length : Option String
  weight : Option String
  eyes : Option String
  colors : Option (List String)
  rare_colors : Option (List String)
  pre1925codes : Option (List (List (String × Int)))
  notes : Option String
deriving DecidableEq

/-- A manufacturer record as the lure provider reads it. -/
structure LureManufacturer where
  id : String
  name : String
  lures : Option (List LureEntry)
deriving DecidableEq

/-- The parsed source document as the lure provider sees it. -/
structure LureDatabase where
  manufacturers : Option (List (String × LureManufacturer))
deriving DecidableEq

/-- A flattened cached lure record (interface LureData). -/
structure LureData where
  name : String
  number : NumVal
  yearIntroduced : Option Int
  yearLastMfg : Option Int
  colors : Option (List String)
  rare_colors : Option (List String)
  pre1925codes : Option (List (List (String × Int)))
  notes : Option String
  manufacturerId : String
  manufacturerName : String
deriving DecidableEq

/-- The sort relation induced by the shared comparator on lure records. -/
def lureRank (q : String) (a b : LureData) : Prop := nameCmp q a.name b.name ≤ 0

instance (q : String) : DecidableRel (lureRank q) := fun a b => by
  unfold lureRank; infer_instance

namespace LureSearchProvider

/-- The mutable state of a LureSearchProvider instance. -/
structure State where
  database : Option LureDatabase
  lureCache : List LureData
deriving DecidableEq

/-- The field initializers of the class. -/
def initialState : State := ⟨none, []⟩

/-- Flattening of one source lure onto the cache. -/
def flattenLure (manufacturerId manufacturerName : String) (l : LureEntry) : LureData :=
  ⟨l.name, l.number, l.yearIntroduced, l.yearLastMfg, l.colors, l.rare_colors,
    l.pre1925codes, l.notes, manufacturerId, manufacturerName⟩

/-- LureSearchProvider.buildLureCache: manufacturers without lures (absent or
empty array) are skipped; like the color provider, a document without a
manufacturers mapping leaves the previous cache in place. -/
def buildLureCache (db : LureDatabase) (old : List LureData) : List LureData :=
  match db.manufacturers with
  | none => old
  | some ms =>
    ms.foldl (fun acc e =>
      match e.2.lures with
      | none => acc
      | some ls => acc ++ ls.map (flattenLure e.1 e.2.name)) []

/-- LureSearchProvider.loadDatabase, with none for a read/parse failure. -/
def loadDatabase (st : State) (input : Option LureDatabase) : State :=
  match input with
  | none => ⟨none, []⟩
  | some db => ⟨some db, buildLureCache db st.lureCache⟩

/-- The constructor. -/
def create (input : Option LureDatabase) : State := loadDatabase initialState input

/-- LureSearchProvider.reload. -/
def reload (st : State) (input : Option LureDatabase) : State := loadDatabase st input

/-- LureSearchProvider.search: exact number match first (string representation
against the raw query), then a substring scan over name, number and
manufacturer name, ranked by the shared comparator. -/
def search (cache : List LureData) (query : String) : List LureData :=
  let lowerQuery := jsTrim (jsToLower query)
  if lowerQuery.isEmpty then []
  else
    let numberMatch := cache.filter (fun l => numToString l.number == query)
    if !numberMatch.isEmpty then numberMatch
    else
      List.insertionSort (lureRank lowerQuery)
        (cache.filter (fun l =>
          jsIncludes (jsToLower l.name) lowerQuery ||
          jsIncludes (numToString l.number) query ||
          jsIncludes (jsToLower l.manufacturerName) lowerQuery))

/-- LureSearchProvider.getByName: first lure whose lowercased name equals the
lowercased argument. -/
def getByName (cache : List LureData) (name : String) : Option LureData :=
  cache.find? (fun l => jsToLower l.name == jsToLower name)

/-- LureSearchProvider.getByNumber: all lures whose number has the same string
representation as the argument. -/
def getByNumber (cache : List LureData) (number : NumVal) : List LureData :=
  cache.filter (fun l => numToString l.number == numToString number)

/-- LureSearchProvider.getAllLures: a copy of the cache. -/
def getAllLures (cache : List LureData) : List LureData := cache

end LureSearchProvider

/-! ## The resolver logic of extension.ts -/

namespace Extension

/-- The value type of the module-level colorLookup map of extension.ts. -/
structure ColorInfo where
  name : String
  pre1925Id : Option (List String)
  companyId : Option String
deriving DecidableEq

/-- The color list the lookup map is built from: only the colors of the
manufacturer keyed creek-chub, or nothing when the document failed to parse,
lacks manufacturers, lacks that manufacturer, or that manufacturer lacks a
colors array (buildColorLookup's guard). -/
def creekChubColors (input : Option Database) : List ColorEntry :=
  match input with
  | none => []
  | some data =>
    match (data.manufacturers.bind (fun m => mapGet m "creek-chub")).bind
        Manufacturer.colors with
    | none => []
    | some cs => cs

/-- buildColorLookup of extension.ts: successive Map.set calls over the
creek-chub colors; represented as the binding list in insertion order, read
through mapGet (last binding wins). -/
def buildColorLookup (input : Option Database) : List (String × ColorInfo) :=
  (creekChubColors input).map (fun c => (c.id, ⟨c.name, c.pre1925Id, c.companyId⟩))

/-- getColorInfo of extension.ts: the looked-up info, or an info carrying the
raw id as name when the id is not bound. -/
def getColorInfo (lookup : List (String × ColorInfo)) (colorId : String) : ColorInfo :=
  match mapGet lookup colorId with
  | some info => info
  | none => ⟨colorId, none, none⟩

/-- The derived-lure-code fragment of getLureDetailsHtml for one color entry:
none when the guard (companyId present, nonempty, and matching the all-digits
regex) fails and no code span is emitted; some v when a span is emitted, where
v is the computed code and v = none models the span rendering NaN (the guard
never inspects the lure number, so a non-numeric number still emits a span). -/
def lureCodeSpan (lureNumber : NumVal) (companyId : Option String) : Option (Option Int) :=
  match companyId with
  | none => none
  | some cid =>
    if cid.data.isEmpty || !(cid.data.all Char.isDigit) then none
    else
      some (match jsToNumber lureNumber, jsStringToNumber cid with
            | some b, some m => some (b.fdiv 100 * 100 + m)
            | _, _ => none)

/-- The pre-1925 legacy-code map of getLureDetailsHtml: all entries of all
single-entry mappings, set in order (last binding wins under mapGet). -/
def pre1925Map (l : LureData) : List (String × Int) :=
  match l.pre1925codes with
  | none => []
  | some items => items.foldl (fun acc item => acc ++ item) []

end Extension

/-! ## Order-theoretic facts about the shared comparator -/

/-- The two match flags of a record name against a query, encoded so that
smaller rank sorts earlier: exact case-insensitive equality contributes 0
versus 2, a case-insensitive prefix contributes 0 versus 1. -/
def matchRank (q n : String) : Nat :=
  (if jsToLower n == q then 0 else 2) + (if jsStartsWith (jsToLower n) q then 0 else 1)

/-- The total preorder underlying the comparator: lexicographic on match rank,
then on the lowercased name, then on the raw name. -/
def keyLE (q a b : String) : Prop :=
  matchRank q a < matchRank q b ∨
    (matchRank q a = matchRank q b ∧
      ((jsToLower a).data < (jsToLower b).data ∨
        ((jsToLower a).data = (jsToLower b).data ∧ a.data ≤ b.data)))

theorem localeCompare_le_iff (a b : String) :
    localeCompare a b ≤ 0 ↔
      ((jsToLower a).data < (jsToLower b).data ∨
        ((jsToLower a).data = (jsToLower b).data ∧ a.data ≤ b.data)) := by
  unfold localeCompare
  by_cases h1 : (jsToLower a).data < (jsToLower b).data
  · rw [if_pos h1]
    exact iff_of_true (by norm_num) (Or.inl h1)
  · rw [if_neg h1]
    by_cases h2 : (jsToLower b).data < (jsToLower a).data
    · rw [if_pos h2]
      refine iff_of_false (by norm_num) ?_
      rintro (h | ⟨he, _⟩)
      · exact h1 h
      · exact absurd h2 (by rw [he]; exact lt_irrefl _)
    · rw [if_neg h2]
      have he : (jsToLower a).data = (jsToLower b).data :=
        le_antisymm (not_lt.mp h2) (not_lt.mp h1)
      by_cases h3 : a.data < b.data
      · rw [if_pos h3]
        exact iff_of_true (by norm_num) (Or.inr ⟨he, le_of_lt h3⟩)
      · rw [if_neg h3]
        by_cases h4 : b.data < a.data
        · rw [if_pos h4]
          refine iff_of_false (by norm_num) ?_
          rintro (h | ⟨_, hle⟩)
          · exact h1 h
          · exact absurd h4 (not_lt.mpr hle)
        · rw [if_neg h4]
          exact iff_of_true le_rfl (Or.inr ⟨he, not_lt.mp h4⟩)

theorem nameCmp_le_iff (q a b : String) : nameCmp q a b ≤ 0 ↔ keyLE q a b := by
  unfold nameCmp keyLE matchRank
  cases hae : (jsToLower a == q) <;> cases hbe : (jsToLower b == q) <;>
    cases has : jsStartsWith (jsToLower a) q <;>
    cases hbs : jsStartsWith (jsToLower b) q <;>
    simp [hae, hbe, has, hbs, localeCompare_le_iff]

theorem keyLE_trans {q a b c : String} (h1 : keyLE q a b) (h2 : keyLE q b c) :
    keyLE q a c := by
  rcases h1 with h1 | ⟨e1, t1⟩
  · rcases h2 with h2 | ⟨e2, _⟩
    · exact Or.inl (h1.trans h2)
    · exact Or.inl (e2 ▸ h1)
  · rcases h2 with h2 | ⟨e2, t2⟩
    · exact Or.inl (e1 ▸ h2)
    · refine Or.inr ⟨e1.trans e2, ?_⟩
      rcases t1 with t1 | ⟨f1, u1⟩
      · rcases t2 with t2 | ⟨f2, _⟩
        · exact Or.inl (t1.trans t2)
        · exact Or.inl (f2 ▸ t1)
      · rcases t2 with t2 | ⟨f2, u2⟩
        · exact Or.inl (f1 ▸ t2)
        · exact Or.inr ⟨f1.trans f2, u1.trans u2⟩

theorem keyLE_total (q a b : String) : keyLE q a b ∨ keyLE q b a := by
  rcases lt_trichotomy (matchRank q a) (matchRank q b) with h | h | h
  · exact Or.inl (Or.inl h)
  · rcases lt_trichotomy ((jsToLower a).data) ((jsToLower b).data) with g | g | g
    · exact Or.inl (Or.inr ⟨h, Or.inl g⟩)
    · rcases le_total a.data b.data with u | u
      · exact Or.inl (Or.inr ⟨h, Or.inr ⟨g, u⟩⟩)
      · exact Or.inr (Or.inr ⟨h.symm, Or.inr ⟨g.symm, u⟩⟩)
    · exact Or.inr (Or.inr ⟨h.symm, Or.inl g⟩)
  · exact Or.inr (Or.inl h)

theorem nameCmp_trans {q a b c : String} (h1 : nameCmp q a b ≤ 0)
    (h2 : nameCmp q b c ≤ 0) : nameCmp q a c ≤ 0 :=
  (nameCmp_le_iff q a c).mpr
    (keyLE_trans ((nameCmp_le_iff q a b).mp h1) ((nameCmp_le_iff q b c).mp h2))

theorem nameCmp_total (q a b : String) : nameCmp q a b ≤ 0 ∨ nameCmp q b a ≤ 0 := by
  rcases keyLE_total q a b with h | h
  · exact Or.inl ((nameCmp_le_iff q a b).mpr h)
  · exact Or.inr ((nameCmp_le_iff q b a).mpr h)

/-! ## Helper lemmas about lookup, uniqueness and digit strings -/

theorem find?_eq_of_unique {α : Type} {p : α → Bool} {l : List α} {c : α}
    (hmem : c ∈ l) (hp : p c = true) (huniq : ∀ d ∈ l, p d = true → d = c) :
    l.find? p = some c := by
  induction l with
  | nil => cases hmem
  | cons a t ih =>
    by_cases ha : p a = true
    · have hac : a = c := huniq a (List.mem_cons_self a t) ha
      rw [List.find?_cons_of_pos _ ha, hac]
    · rw [List.find?_cons_of_neg _ ha]
      have hct : c ∈ t := by
        rcases List.mem_cons.mp hmem with rfl | h
        · exact absurd hp ha
        · exact h
      exact ih hct (fun d hd hpd => huniq d (List.mem_cons_of_mem _ hd) hpd)

theorem mapGet_eq {α : Type} (m : List (String × α)) (k : String) :
    mapGet m k = (m.reverse.find? (fun e => e.1 == k)).map Prod.snd := by
  induction m using List.reverseRecOn with
  | nil => rfl
  | append_singleton t e ih =>
    have hl : mapGet (t ++ [e]) k = if e.1 == k then some e.2 else mapGet t k := by
      unfold mapGet
      rw [List.foldl_append]
      rfl
    rw [hl, List.reverse_append]
    simp only [List.reverse_cons, List.reverse_nil, List.nil_append, List.singleton_append]
    by_cases he : (e.1 == k) = true
    · rw [if_pos he]
      rw [List.find?_cons_of_pos]
      · rfl
      · exact he
    · rw [if_neg he]
      rw [List.find?_cons_of_neg]
      · exact ih
      · exact he

theorem isJsSpace_eq_false_of_isDigit {c : Char} (h : c.isDigit = true) :
    isJsSpace c = false := by
  have h1 : c ≠ ' ' := fun e => absurd h (by rw [e]; decide)
  have h2 : c ≠ '\t' := fun e => absurd h (by rw [e]; decide)
  have h3 : c ≠ '\n' := fun e => absurd h (by rw [e]; decide)
  have h4 : c ≠ '\r' := fun e => absurd h (by rw [e]; decide)
  have h5 : c ≠ '\x0b' := fun e => absurd h (by rw [e]; decide)
  have h6 : c ≠ '\x0c' := fun e => absurd h (by rw [e]; decide)
  simp [isJsSpace, h1, h2, h3, h4, h5, h6]

theorem dropWhile_isJsSpace_of_digits {l : List Char} (h : l.all Char.isDigit = true) :
    l.dropWhile isJsSpace = l := by
  cases l with
  | nil => rfl
  | cons c cs =>
    have hc : c.isDigit = true := by
      simp only [List.all_cons, Bool.and_eq_true] at h
      exact h.1
    rw [List.dropWhile_cons]
    rw [if_neg (by simp [isJsSpace_eq_false_of_isDigit hc])]

theorem jsTrim_data_of_digits {s : String} (h : s.data.all Char.isDigit = true) :
    (jsTrim s).data = s.data := by
  unfold jsTrim
  rw [dropWhile_isJsSpace_of_digits h]
  rw [dropWhile_isJsSpace_of_digits (by simpa using h)]
  exact List.reverse_reverse _

theorem jsStringToNumber_of_digits {s : String} (hne : s.data ≠ [])
    (h : s.data.all Char.isDigit = true) :
    jsStringToNumber s = some (Int.ofNat (decDigitsVal s.data)) := by
  simp only [jsStringToNumber]
  rw [jsTrim_data_of_digits h]
  rw [if_neg (by simp [List.isEmpty_iff, hne])]
  rw [if_pos h]

/-! ## Concrete catalog fixtures for witnesses and counterexamples -/

/-- Color ccbc-00, Goldfish. -/
def goldfish : ColorEntry := ⟨"ccbc-00", "Goldfish", some 1918, none, some "00", none⟩

/-- Color ccbc-00b, whose id substring-contains ccbc-00. -/
def goldfishB : ColorEntry := ⟨"ccbc-00b", "Goldfish Blend", none, none, none, none⟩

/-- The flattened cache record of goldfish under the creek-chub manufacturer. -/
def goldfishData : ColorData :=
  ⟨"ccbc-00", "Goldfish", some 1918, none, some "00", none, "creek-chub", "Creek Chub"⟩

/-- A catalog whose document carries no indexes block. -/
def dbNoIndexes : Database :=
  ⟨some [("creek-chub", ⟨"creek-chub", "Creek Chub", some [goldfish, goldfishB]⟩)], none⟩

/-- Provider state loaded from dbNoIndexes. -/
def stNoIndexes : ColorSearchProvider.State := ColorSearchProvider.create (some dbNoIndexes)

/-- The same catalog with a byId index entry for ccbc-00. -/
def dbWithIdIndex : Database :=
  ⟨some [("creek-chub", ⟨"creek-chub", "Creek Chub", some [goldfish, goldfishB]⟩)],
    some ⟨some [("ccbc-00", ⟨"creek-chub", "Goldfish", some "00"⟩)], none, none, none⟩⟩

/-- Provider state loaded from dbWithIdIndex. -/
def stWithIdIndex : ColorSearchProvider.State := ColorSearchProvider.create (some dbWithIdIndex)

/-- Color hed-12 with producer-local code 12. -/
def shiner : ColorEntry := ⟨"hed-12", "Shiner", none, none, some "12", none⟩

/-- Color ccbc-12 with the same producer-local code 12 under another producer. -/
def silver : ColorEntry := ⟨"ccbc-12", "Silver Flash", none, none, some "12", none⟩

/-- A color whose name substring-contains 12 but whose companyId is not 12. -/
def twelfthNight : ColorEntry := ⟨"ccbc-77", "12th Night", none, none, none, none⟩

/-- Flattened cache record of shiner. -/
def shinerData : ColorData := ⟨"hed-12", "Shiner", none, none, some "12", none, "hed", "Heddon"⟩

/-- Flattened cache record of silver. -/
def silverData : ColorData :=
  ⟨"ccbc-12", "Silver Flash", none, none, some "12", none, "ccbc", "Creek Chub"⟩

/-- Two producers sharing companyId 12 plus a substring diluter, no indexes. -/
def dbTwoTwelves : Database :=
  ⟨some [("hed", ⟨"hed", "Heddon", some [shiner]⟩),
      ("ccbc", ⟨"ccbc", "Creek Chub", some [silver, twelfthNight]⟩)], none⟩

/-- Provider state loaded from dbTwoTwelves. -/
def stTwoTwelves : ColorSearchProvider.State := ColorSearchProvider.create (some dbTwoTwelves)

/-- The same two-producer catalog with a consistent byCompanyId index for 12. -/
def dbCompanyIndex : Database :=
  ⟨some [("hed", ⟨"hed", "Heddon", some [shiner]⟩),
      ("ccbc", ⟨"ccbc", "Creek Chub", some [silver, twelfthNight]⟩)],
    some ⟨none, some [("12", ["hed-12", "ccbc-12"])], none, none⟩⟩

/-- Provider state loaded from dbCompanyIndex. -/
def stCompanyIndex : ColorSearchProvider.State := ColorSearchProvider.create (some dbCompanyIndex)

/-- Color ccbc-14, Redhead. -/
def redhead : ColorEntry := ⟨"ccbc-14", "Redhead", none, none, some "14", none⟩

/-- Flattened cache record of redhead. -/
def redheadData : ColorData :=
  ⟨"ccbc-14", "Redhead", none, none, some "14", none, "ccbc", "Creek Chub"⟩

/-- A well-formed catalog holding only redhead. -/
def dbRedhead : Database := ⟨some [("ccbc", ⟨"ccbc", "Creek Chub", some [redhead]⟩)], none⟩

/-- The parse of the document returning the JSON value with no manufacturers
key (for instance the empty object), which JSON.parse accepts. -/
def dbEmptyObject : Database := ⟨none, none⟩

/-- The three frog colors of the ranking example, listed in reverse rank
order so that the sort has to move every record. -/
def dbFrogs : Database :=
  ⟨some [("ccbc", ⟨"ccbc", "Creek Chub",
      some [⟨"ccbc-19", "Green Frog", none, none, none, none⟩,
        ⟨"ccbc-18", "Frog Spot", none, none, none, none⟩,
        ⟨"ccbc-17", "Frog", none, none, none, none⟩]⟩)], none⟩

/-- Provider state loaded from dbFrogs. -/
def stFrogs : ColorSearchProvider.State := ColorSearchProvider.create (some dbFrogs)

/-- Color hed-1, Red Scale, under a producer other than creek-chub. -/
def dbHeddonOnly : Database :=
  ⟨some [("heddon", ⟨"heddon", "Heddon", some [⟨"hed-1", "Red Scale", none, none, none, none⟩]⟩)],
    none⟩

/-- Provider state loaded from dbHeddonOnly. -/
def stHeddon : ColorSearchProvider.State := ColorSearchProvider.create (some dbHeddonOnly)

/-- Flattened cache record of the Red Scale color. -/
def redScaleData : ColorData :=
  ⟨"hed-1", "Red Scale", none, none, none, none, "heddon", "Heddon"⟩

/-- A catalog whose two color ids differ only in case (both globally unique). -/
def dbCaseIds : Database :=
  ⟨some [("ccbc", ⟨"ccbc", "Creek Chub",
      some [⟨"ccbc-00", "Goldfish", none, none, none, none⟩,
        ⟨"CCBC-00", "Loud Goldfish", none, none, none, none⟩]⟩)], none⟩

/-- Provider state loaded from dbCaseIds. -/
def stCaseIds : ColorSearchProvider.State := ColorSearchProvider.create (some dbCaseIds)

/-- A lure with the numeric number 700. -/
def pikie700 : LureData :=
  ⟨"Pikie Minnow", .num 700, some 1920, none, some ["ccbc-00"], none, none, none,
    "ccbc", "Creek Chub"⟩

/-- A lure with the string number 700. -/
def pikieStr : LureData :=
  ⟨"Pikie Seven Hundred", .str "700", none, none, none, none, none, none,
    "ccbc", "Creek Chub"⟩

/-- A lure with an unrelated number. -/
def darter : LureData :=
  ⟨"Darter", .num 2000, none, none, none, none, none, none, "ccbc", "Creek Chub"⟩

/-- A small lure cache. -/
def lureCache700 : List LureData := [pikie700, pikieStr, darter]

/-! ## Claims -/

/-- C1, counterexample: in a cache whose document has no indexes block, the
query ccbc-00 (whose trimmed lowercased form is exactly the id of a cached
color) is answered by the substring scan, so the record with id ccbc-00b is
returned as well and the result is not a single-element sequence. -/
theorem C1_counterexample :
    stNoIndexes.colorCache.map ColorData.id = ["ccbc-00", "ccbc-00b"] ∧
    (ColorSearchProvider.search stNoIndexes "ccbc-00").length = 2 := by decide

/-- C1 (amended): when additionally the document's optional byId index holds
the trimmed lowercased query as a key, and the cached color whose lowercased
id equals that query is unique, search returns exactly that one color,
bypassing ranking and the substring scan. -/
theorem C1_exact_id (st : ColorSearchProvider.State) (q : String) (c : ColorData)
    (h0 : (jsTrim (jsToLower q)).isEmpty = false)
    (hkey : ((st.database.bind Database.indexes).bind Indexes.byId).bind
      (fun m => mapGet m (jsTrim (jsToLower q))) ≠ none)
    (hmem : c ∈ st.colorCache)
    (hid : jsToLower c.id = jsTrim (jsToLower q))
    (huniq : ∀ d ∈ st.colorCache, jsToLower d.id = jsTrim (jsToLower q) → d = c) :
    ColorSearchProvider.search st q = [c] := by
  have hfind : st.colorCache.find? (fun d => jsToLower d.id == jsTrim (jsToLower q)) = some c :=
    find?_eq_of_unique hmem (by simp [hid])
      (fun d hd hpd => huniq d hd (by simpa [beq_iff_eq] using hpd))
  have hhit : ColorSearchProvider.byIdHit st (jsTrim (jsToLower q)) = some c := by
    unfold ColorSearchProvider.byIdHit
    rcases hv : ((st.database.bind Database.indexes).bind Indexes.byId).bind
        (fun m => mapGet m (jsTrim (jsToLower q))) with _ | v
    · exact absurd hv hkey
    · simp [hv, hfind]
  simp [ColorSearchProvider.search, h0, hhit]

/-- C1, witness: with the byId index present, the any-case query CCBC-00
returns exactly the Goldfish record even though ccbc-00b also
substring-contains the query. -/
theorem C1_witness : ColorSearchProvider.search stWithIdIndex "CCBC-00" = [goldfishData] :=
  C1_exact_id stWithIdIndex "CCBC-00" goldfishData (by decide) (by decide) (by decide)
    (by decide) (by decide)

/-- C2, counterexample: with no indexes block, the query 12 against a cache
holding two colors with companyId 12 falls through to the substring scan,
which also returns the color named 12th Night, so the result is not exactly
the set of colors with that companyId. -/
theorem C2_counterexample :
    (stTwoTwelves.colorCache.filter (fun c => c.companyId == some "12")).length = 2 ∧
    (ColorSearchProvider.search stTwoTwelves "12").length = 3 := by decide

/-- C2 (amended): when additionally the document's optional byCompanyId index
maps the raw query to an id list that resolves against the cache to exactly
the colors whose companyId equals the query (a consistent index), that set is
nonempty, and the exact-id branch does not fire, search returns exactly the
set of all colors with that companyId, unranked. -/
theorem C2_companyId (st : ColorSearchProvider.State) (q : String) (ids : List String)
    (h0 : (jsTrim (jsToLower q)).isEmpty = false)
    (h1 : ColorSearchProvider.byIdHit st (jsTrim (jsToLower q)) = none)
    (h2 : ((st.database.bind Database.indexes).bind Indexes.byCompanyId).bind
      (fun m => mapGet m q) = some ids)
    (h3 : ids.filterMap (fun i => st.colorCache.find? (fun c => c.id == i)) =
      st.colorCache.filter (fun c => c.companyId == some q))
    (h4 : st.colorCache.filter (fun c => c.companyId == some q) ≠ []) :
    ColorSearchProvider.search st q = st.colorCache.filter (fun c => c.companyId == some q) := by
  have hhit : ColorSearchProvider.companyIdHit st q =
      some (st.colorCache.filter (fun c => c.companyId == some q)) := by
    unfold ColorSearchProvider.companyIdHit
    rw [h2]
    simp only [h3]
    rw [if_neg (by simp [List.isEmpty_iff, h4])]
  simp [ColorSearchProvider.search, h0, h1, hhit]

/-- C2, witness: with a consistent byCompanyId index, the query 12 returns
exactly the two colors from different producers whose companyId is 12,
excluding the record that merely substring-contains 12. -/
theorem C2_witness :
    ColorSearchProvider.search stCompanyIndex "12" = [shinerData, silverData] := by
  have h := C2_companyId stCompanyIndex "12" ["hed-12", "ccbc-12"] (by decide) (by decide)
    (by decide) (by decide) (by decide)
  rw [h]
  decide

/-- C3: for a variant whose number coerces to the integer n and a color whose
companyId is a nonempty all-digit string, the derived lure code is
floor(n / 100) * 100 + numeric(companyId); no code span is emitted when the
companyId is absent or contains a non-digit character. -/
theorem C3_derived_code :
    (∀ (number : NumVal) (n : Int) (cid : String),
      jsToNumber number = some n → cid.data ≠ [] → cid.data.all Char.isDigit = true →
      Extension.lureCodeSpan number (some cid) =
        some (some (n.fdiv 100 * 100 + Int.ofNat (decDigitsVal cid.data))) ∧
      jsStringToNumber cid = some (Int.ofNat (decDigitsVal cid.data))) ∧
    (∀ number : NumVal, Extension.lureCodeSpan number none = none) ∧
    (∀ (number : NumVal) (cid : String), cid.data.all Char.isDigit = false →
      Extension.lureCodeSpan number (some cid) = none) := by
  refine ⟨?_, ?_, ?_⟩
  · intro number n cid hn hne hdig
    have hv := jsStringToNumber_of_digits hne hdig
    refine ⟨?_, hv⟩
    simp only [Extension.lureCodeSpan]
    rw [if_neg (by simp [List.isEmpty_iff, hne, hdig])]
    rw [hn, hv]
  · intro number
    rfl
  · intro number cid h
    simp only [Extension.lureCodeSpan]
    rw [if_pos (by simp [h])]

/-- C3, witness: variant number 700 with companyId 12 yields derived code 712,
and companyId Y12 yields no derived code. -/
theorem C3_witness :
    Extension.lureCodeSpan (.num 700) (some "12") = some (some 712) ∧
    Extension.lureCodeSpan (.num 700) (some "Y12") = none := by
  constructor
  · have h := (C3_derived_code.1 (.num 700) 700 "12" rfl (by decide) (by decide)).1
    rw [h]
    decide
  · exact C3_derived_code.2.2 (.num 700) "Y12" (by decide)

/-- C4, bug exhibit: after a successful load, reloading a document that parses
but lacks the manufacturers key (the claim's missing expected top-level shape)
leaves the previous cache in place, so a subsequent search still returns the
stale record instead of the empty sequence the claim requires; by contrast a
reload whose read or parse fails (none) does empty the cache. -/
theorem C4_stale_cache_on_shape_failure :
    (ColorSearchProvider.reload (ColorSearchProvider.create (some dbRedhead))
        (some dbEmptyObject)).colorCache = [redheadData] ∧
    ColorSearchProvider.search
      (ColorSearchProvider.reload (ColorSearchProvider.create (some dbRedhead))
        (some dbEmptyObject)) "redhead" = [redheadData] ∧
    ColorSearchProvider.search
      (ColorSearchProvider.reload (ColorSearchProvider.create (some dbRedhead)) none)
      "redhead" = [] := by decide

/-- C5: whenever a query reaches the substring-scan path (nonblank after
trimming and lowercasing, and neither exact branch fires), the returned
sequence of either provider is ordered by the three-step comparator: exact
case-insensitive name matches first, then case-insensitive prefix matches,
then ascending case-insensitive lexicographic order on names. -/
theorem C5_ranking :
    (∀ (st : ColorSearchProvider.State) (q : String),
      (jsTrim (jsToLower q)).isEmpty = false →
      ColorSearchProvider.byIdHit st (jsTrim (jsToLower q)) = none →
      ColorSearchProvider.companyIdHit st q = none →
      (ColorSearchProvider.search st q).Pairwise
        (fun a b => nameCmp (jsTrim (jsToLower q)) a.name b.name ≤ 0)) ∧
    (∀ (cache : List LureData) (q : String),
      (jsTrim (jsToLower q)).isEmpty = false →
      cache.filter (fun l => numToString l.number == q) = [] →
      (LureSearchProvider.search cache q).Pairwise
        (fun a b => nameCmp (jsTrim (jsToLower q)) a.name b.name ≤ 0)) := by
  constructor
  · intro st q h0 h1 h2
    have hs : ColorSearchProvider.search st q =
        List.insertionSort (colorRank (jsTrim (jsToLower q)))
          (st.colorCache.filter (ColorSearchProvider.colorMatches (jsTrim (jsToLower q)))) := by
      simp [ColorSearchProvider.search, h0, h1, h2]
    rw [hs]
    haveI : IsTrans ColorData (colorRank (jsTrim (jsToLower q))) :=
      ⟨fun _ _ _ hab hbc => nameCmp_trans hab hbc⟩
    haveI : IsTotal ColorData (colorRank (jsTrim (jsToLower q))) :=
      ⟨fun a b => nameCmp_total _ a.name b.name⟩
    exact List.sorted_insertionSort (colorRank (jsTrim (jsToLower q))) _
  · intro cache q h0 h2
    have hs : LureSearchProvider.search cache q =
        List.insertionSort (lureRank (jsTrim (jsToLower q)))
          (cache.filter (fun l =>
            jsIncludes (jsToLower l.name) (jsTrim (jsToLower q)) ||
            jsIncludes (numToString l.number) q ||
            jsIncludes (jsToLower l.manufacturerName) (jsTrim (jsToLower q)))) := by
      simp [LureSearchProvider.search, h0, h2]
    rw [hs]
    haveI : IsTrans LureData (lureRank (jsTrim (jsToLower q))) :=
      ⟨fun _ _ _ hab hbc => nameCmp_trans hab hbc⟩
    haveI : IsTotal LureData (lureRank (jsTrim (jsToLower q))) :=
      ⟨fun a b => nameCmp_total _ a.name b.name⟩
    exact List.sorted_insertionSort (lureRank (jsTrim (jsToLower q))) _

/-- C5, witness: on the cache with names Green Frog, Frog Spot, Frog (stored
in that order) the query frog takes the scan path, the output is sorted under
the comparator, and its concrete order is Frog, Frog Spot, Green Frog. -/
theorem C5_witness :
    (ColorSearchProvider.search stFrogs "frog").Pairwise
      (fun a b => nameCmp (jsTrim (jsToLower "frog")) a.name b.name ≤ 0) ∧
    (ColorSearchProvider.search stFrogs "frog").map ColorData.name =
      ["Frog", "Frog Spot", "Green Frog"] :=
  ⟨C5_ranking.1 stFrogs "frog" (by decide) (by decide) (by decide), by decide⟩

/-- C7, bug exhibit: the derived-code guard of getLureDetailsHtml never checks
that the variant number coerces to a number, so for the non-numeric number
Pikie with the all-digit companyId 12 a lure-code span is still emitted, whose
NaN value (modelled by the inner none) is rendered to the user; the claim and
the design intent require no derived-code output for that pair. -/
theorem C7_nan_code_span :
    Extension.lureCodeSpan (.str "Pikie") (some "12") = some none := by decide

/-- C6, counterexample: the Red Scale color belongs to a producer other than
creek-chub, so although it is present in the Color Index (getById finds it
with display name Red Scale), the resolver's lookup map does not contain it
and getColorInfo returns the raw id hed-1 as the name. -/
theorem C6_counterexample :
    ColorSearchProvider.getById stHeddon "hed-1" = some redScaleData ∧
    (Extension.getColorInfo (Extension.buildColorLookup (some dbHeddonOnly)) "hed-1").name =
      "hed-1" ∧
    redScaleData.name = "Red Scale" := by decide

/-- C6 (amended): the resolver's name output is the color's display name
whenever the color id is bound in the creek-chub lookup map (the last
creek-chub color entry with that id winning), and is the raw id string
otherwise; resolution is a total function, so it never fails. -/
theorem C6_resolver_name (input : Option Database) (colorId : String) :
    ((∀ c ∈ Extension.creekChubColors input, c.id ≠ colorId) →
      Extension.getColorInfo (Extension.buildColorLookup input) colorId =
        ⟨colorId, none, none⟩) ∧
    (∀ c : ColorEntry,
      (Extension.creekChubColors input).reverse.find? (fun e => e.id == colorId) = some c →
      Extension.getColorInfo (Extension.buildColorLookup input) colorId =
        ⟨c.name, c.pre1925Id, c.companyId⟩) := by
  have key : mapGet (Extension.buildColorLookup input) colorId =
      ((Extension.creekChubColors input).reverse.find? (fun e => e.id == colorId)).map
        (fun c => (⟨c.name, c.pre1925Id, c.companyId⟩ : Extension.ColorInfo)) := by
    unfold Extension.buildColorLookup
    rw [mapGet_eq, ← List.map_reverse, List.find?_map, Option.map_map]
    rfl
  constructor
  · intro h
    have hf : (Extension.creekChubColors input).reverse.find?
        (fun e => e.id == colorId) = none := by
      refine List.find?_eq_none.mpr ?_
      intro x hx
      simpa [beq_iff_eq] using h x (List.mem_reverse.mp hx)
    simp [Extension.getColorInfo, key, hf]
  · intro c hc
    simp [Extension.getColorInfo, key, hc]

/-- C6, witness: on a catalog whose creek-chub producer holds the Goldfish
color, the resolver returns that display name for its id and degrades to the
raw id string for an unknown id. -/
theorem C6_witness :
    Extension.getColorInfo (Extension.buildColorLookup (some dbNoIndexes)) "ccbc-00" =
      ⟨"Goldfish", none, some "00"⟩ ∧
    Extension.getColorInfo (Extension.buildColorLookup (some dbNoIndexes)) "hed-99" =
      ⟨"hed-99", none, none⟩ :=
  ⟨(C6_resolver_name (some dbNoIndexes) "ccbc-00").2 goldfish (by decide),
    (C6_resolver_name (some dbNoIndexes) "hed-99").1 (by decide)⟩

/-- C8: for every cache state of either provider, a query that is empty or
whitespace-only (its lowercased, trimmed form is empty) returns the empty
sequence with no error. -/
theorem C8_blank_query :
    (∀ (st : ColorSearchProvider.State) (q : String),
      (jsTrim (jsToLower q)).isEmpty = true → ColorSearchProvider.search st q = []) ∧
    (∀ (cache : List LureData) (q : String),
      (jsTrim (jsToLower q)).isEmpty = true → LureSearchProvider.search cache q = []) := by
  constructor
  · intro st q h
    simp [ColorSearchProvider.search, h]
  · intro cache q h
    simp [LureSearchProvider.search, h]

/-- C8, witness: the whitespace-only query returns nothing on concrete
nonempty color and lure caches. -/
theorem C8_witness :
    ColorSearchProvider.search stFrogs "   " = [] ∧
    LureSearchProvider.search lureCache700 "   " = [] :=
  ⟨C8_blank_query.1 stFrogs "   " (by decide),
    C8_blank_query.2 lureCache700 "   " (by decide)⟩

/-- C9: getByNumber returns exactly the cached lures whose number has the same
string representation as the argument, so a numeric and a string-typed
argument with equal representations give equal results. -/
theorem C9_getByNumber (cache : List LureData) (a : NumVal) :
    (∀ l, l ∈ LureSearchProvider.getByNumber cache a ↔
      (l ∈ cache ∧ numToString l.number = numToString a)) ∧
    (∀ b, numToString a = numToString b →
      LureSearchProvider.getByNumber cache a = LureSearchProvider.getByNumber cache b) := by
  constructor
  · intro l
    simp [LureSearchProvider.getByNumber, List.mem_filter, beq_iff_eq]
  · intro b h
    simp [LureSearchProvider.getByNumber, h]

/-- C9, witness: on a concrete cache getByNumber 700 and getByNumber "700"
agree, and both numeric-700 lures are returned. -/
theorem C9_witness :
    LureSearchProvider.getByNumber lureCache700 (.num 700) =
      LureSearchProvider.getByNumber lureCache700 (.str "700") ∧
    pikie700 ∈ LureSearchProvider.getByNumber lureCache700 (.num 700) := by
  constructor
  · exact (C9_getByNumber lureCache700 (.num 700)).2 (.str "700") (by decide)
  · exact ((C9_getByNumber lureCache700 (.num 700)).1 pikie700).mpr (by decide)

/-- C10, counterexample: in a cache whose ids are globally unique but include
both ccbc-00 and its differently-cased form CCBC-00, getById applied to the
differently-cased form of the first id does not return absent (it returns the
other record), refuting the claim's universally quantified absence clause. -/
theorem C10_counterexample :
    stCaseIds.colorCache.map ColorData.id = ["ccbc-00", "CCBC-00"] ∧
    ColorSearchProvider.getById stCaseIds "CCBC-00" ≠ none := by decide

/-- C10 (amended): getById compares by exact, case-sensitive, untrimmed string
equality: when cached ids are pairwise distinct, each cached color is returned
by its id exactly as stored, and any string that is not the exact id of some
cached color (in particular a differently-cased or whitespace-padded form of
a stored id that is not itself a stored id) returns absent. -/
theorem C10_getById_exact :
    (∀ (st : ColorSearchProvider.State) (c : ColorData),
      (st.colorCache.map ColorData.id).Nodup → c ∈ st.colorCache →
      ColorSearchProvider.getById st c.id = some c) ∧
    (∀ (st : ColorSearchProvider.State) (s : String),
      (∀ c ∈ st.colorCache, c.id ≠ s) → ColorSearchProvider.getById st s = none) := by
  constructor
  · intro st c hnodup hmem
    unfold ColorSearchProvider.getById
    refine find?_eq_of_unique hmem (by simp) ?_
    intro d hd hpd
    exact List.inj_on_of_nodup_map hnodup hd hmem (by simpa [beq_iff_eq] using hpd)
  · intro st s h
    unfold ColorSearchProvider.getById
    refine List.find?_eq_none.mpr ?_
    intro c hc
    simpa [beq_iff_eq] using h c hc

/-- C10, witness: on a concrete cache with distinct ids, the exact stored id
returns its record while a differently-cased and a whitespace-padded form
return absent, even though search would still find the record. -/
theorem C10_witness :
    ColorSearchProvider.getById stNoIndexes "ccbc-00" = some goldfishData ∧
    ColorSearchProvider.getById stNoIndexes "CCBC-00" = none ∧
    ColorSearchProvider.getById stNoIndexes " ccbc-00" = none := by
  refine ⟨?_, ?_, ?_⟩
  · exact C10_getById_exact.1 stNoIndexes goldfishData (by decide) (by decide)
  · exact C10_getById_exact.2 stNoIndexes "CCBC-00" (by decide)
  · exact C10_getById_exact.2 stNoIndexes " ccbc-00" (by decide)
